import Mathlib

/-!
Shallow embedding of `src/backend/train.py` (H2O AutoML training with MLflow
tracking). The file defines the data model of the orchestration layer —
the experiment registry, the run lifecycle, the loaded data frame with its
column types, and the event trace of external calls — and embeds the two
pipeline variants of the source, `train` (artifact-logging variant) and
`main` (CLI variant), as trace-producing functions over an environment of
oracles standing for the external collaborators (file system, H2O frame
loader, H2O AutoML engine, MLflow tracking store).
-/

deriving instance DecidableEq for Except

namespace Demomlops

/-- Python `str.replace(old, new)` over character lists: replaces the leftmost
occurrence of `old` and continues after it, scanning left to right
(non-overlapping). `fuel` bounds the recursion; with `fuel ≥ length of the
scanned list` it never runs out, since every step consumes at least one
character. Modelled for a non-empty `old` (the source only replaces the
fixed pattern `"file:"`). -/
def pyReplaceAux (old new : List Char) : Nat → List Char → List Char
  | 0, l => l
  | _ + 1, [] => []
  | fuel + 1, c :: rest =>
    if old ≠ [] ∧ old.isPrefixOf (c :: rest) then
      new ++ pyReplaceAux old new fuel (List.drop (old.length - 1) rest)
    else
      c :: pyReplaceAux old new fuel rest

/-- Python `str.replace(old, new)`: `model_uri.replace("file:", "")` in the
source (line 78). -/
def pyReplace (s old new : String) : String :=
  ⟨pyReplaceAux old.data new.data s.data.length s.data⟩

/-- Python `str.startswith`: `model_uri.startswith("file:/")` in the source
(line 77). -/
def pyStartsWith (s pre : String) : Bool :=
  pre.data.isPrefixOf s.data

/-- Error taxonomy of the orchestration, matching the exceptions the Python
code can raise: a missing input file (`FileNotFoundError`), a target column
absent from the frame (the H2O missing-column error raised by
`main_frame[target]`, the spec's `InvalidTargetError`), an I/O failure of a
local or artifact write, and a training failure propagated from the engine. -/
inductive Err
  | fileNotFound
  | invalidTarget
  | ioError
  | trainingError
deriving DecidableEq, Repr

/-- Terminal status MLflow records for a run when the `with mlflow.start_run()`
block exits: `FINISHED` on normal exit, `FAILED` when the body raised. -/
inductive RunStatus
  | finished
  | failed
deriving DecidableEq, Repr

/-- The H2O AutoML policy object built by both variants:
`H2OAutoML(max_models=models, seed=42, balance_classes=True,
sort_metric='logloss', ..., exclude_algos=['GLM', 'DRF'])`. -/
structure Policy where
  max_models : Nat
  seed : Nat
  balance_classes : Bool
  sort_metric : String
  exclude_algos : List String
deriving DecidableEq, Repr

/-- A loaded H2O frame: its ordered column names, the raw column→type mapping
inferred by the loader, and the set of columns that have since been coerced to
categorical via `asfactor`. -/
structure Frame where
  col_names : List String
  rawTypes : List (String × String)
  factored : List String
deriving DecidableEq, Repr

/-- `frame.types`: the current column→type mapping the frame reports.
A column factorized by `asfactor` reports the categorical tag `"enum"`;
every other column reports its raw inferred type. -/
def Frame.typesList (f : Frame) : List (String × String) :=
  f.rawTypes.map (fun q => if q.1 ∈ f.factored then (q.1, "enum") else q)

/-- `main_frame[target] = main_frame[target].asfactor()`: coerce one column to
categorical, leaving names and raw types untouched. -/
def Frame.asfactor (f : Frame) (c : String) : Frame :=
  ⟨f.col_names, f.rawTypes, c :: f.factored⟩

/-- `predictors = [n for n in main_frame.col_names if n != target]`
(line 36 and line 158 of the source). -/
def predictorsOf (cols : List String) (target : String) : List String :=
  cols.filter (fun n => n ≠ target)

/-- Content of a locally written file: the JSON column-type snapshot
(`json.dump(main_frame.types, fp)`) or the CSV leaderboard export
(`lb.as_data_frame().to_csv(..., index=False)`, header row first). -/
inductive FileContent
  | json (m : List (String × String))
  | csv (rows : List (List String))
deriving DecidableEq, Repr

/-- One observable call to an external collaborator, in program order. -/
inductive Event
  | registryCreate (name : String) (id : Nat)
  | registryCreateFailed (name : String)
  | registryLookup (name : String) (id : Nat)
  | startRun (rid : Nat)
  | logArtifact (rid : Nat) (localPath : String) (subpath : String)
  | logMetric (rid : Nat) (metric : String) (value : Int)
  | engineTrain (pol : Policy) (x : List String) (y : String) (fr : Frame)
  | logModel (rid : Nat) (subpath : String)
  | getArtifactUri (rid : Nat) (subpath : String) (uri : String)
  | endRun (rid : Nat) (st : RunStatus)
  | writeFile (path : String) (content : FileContent)
  | printMsg (msg : String)
deriving DecidableEq, Repr

/-- Calls that touch the MLflow tracking store (experiment registry, run
lifecycle, metrics, artifacts). Local file writes, console prints and the
training engine are not tracking-store calls. -/
def Event.isTrackingStore : Event → Bool
  | .registryCreate _ _ => true
  | .registryCreateFailed _ => true
  | .registryLookup _ _ => true
  | .startRun _ => true
  | .logArtifact _ _ _ => true
  | .logMetric _ _ _ => true
  | .logModel _ _ => true
  | .getArtifactUri _ _ _ => true
  | .endRun _ _ => true
  | _ => false

/-- Calls into the external training engine (`aml.train`). -/
def Event.isEngine : Event → Bool
  | .engineTrain _ _ _ _ => true
  | _ => false

def Event.isStartRun : Event → Bool
  | .startRun _ => true
  | _ => false

def Event.isEndRun : Event → Bool
  | .endRun _ _ => true
  | _ => false

def Event.isLogModel : Event → Bool
  | .logModel _ _ => true
  | _ => false

def Event.isLogArtifact : Event → Bool
  | .logArtifact _ _ _ => true
  | _ => false

/-- A CSV write: the only CSV the program writes is the leaderboard export. -/
def Event.isCsvWrite : Event → Bool
  | .writeFile _ (.csv _) => true
  | _ => false

/-- Persisted state of the MLflow experiment registry: the name→id table of
existing experiments and the next id to assign. -/
structure Registry where
  experiments : List (String × Nat)
  nextId : Nat
deriving DecidableEq, Repr

/-- `mlflow.create_experiment(name)`: fails if the name already exists,
otherwise persists a new experiment under a freshly assigned id. -/
def create_experiment (reg : Registry) (name : String) :
    Except Unit (Nat × Registry) :=
  match reg.experiments.lookup name with
  | some _ => .error ()
  | none => .ok (reg.nextId, ⟨(name, reg.nextId) :: reg.experiments, reg.nextId + 1⟩)

/-- `client.get_experiment_by_name(name)`: look up the persisted id. -/
def get_experiment_by_name (reg : Registry) (name : String) : Option Nat :=
  reg.experiments.lookup name

/-- The source's get-or-create pattern with its event trace:
`try: experiment_id = mlflow.create_experiment(name)`
`except: experiment = client.get_experiment_by_name(name)` (lines 41–45). -/
def resolveTraced (reg : Registry) (name : String) : Nat × Registry × List Event :=
  match create_experiment reg name with
  | .ok (id, reg') => (id, reg', [.registryCreate name id])
  | .error _ =>
      let id := (get_experiment_by_name reg name).getD 0
      (id, reg, [.registryCreateFailed name, .registryLookup name id])

/-- Experiment resolution as a pure registry transformer: the id the
orchestration proceeds with and the registry state it leaves behind. -/
def resolve (reg : Registry) (name : String) : Nat × Registry :=
  ((resolveTraced reg name).1, (resolveTraced reg name).2.1)

/-- `os.path.dirname`: everything up to the last path separator, or the
empty string when there is none. -/
def dirnameOf (p : String) : String :=
  let parts := p.splitOn "/"
  if parts.length ≤ 1 then "" else String.intercalate "/" parts.dropLast

/-- `os.path.join` for the two-argument uses in the source. -/
def pathJoin (d f : String) : String :=
  if d = "" then f else d ++ "/" ++ f

/-- `os.path.join(os.path.dirname(file_path), 'train_col_types.json')`. -/
def colTypePath (p : String) : String :=
  pathJoin (dirnameOf p) "train_col_types.json"

/-- Environment of external collaborators supplied to one pipeline
invocation: the persisted registry, whether the input file exists, the frame
the loader would return (columns and raw types), the run id MLflow assigns,
success/failure oracles for each fallible external step, the artifact URI the
tracking store resolves for the `model` subpath, the leader's metric values,
and the leaderboard the engine reports (header and rank-ordered rows). -/
structure Env where
  registry : Registry
  fileExists : Bool
  frameCols : List String
  frameTypes : List (String × String)
  runId : Nat
  snapshotWriteOk : Bool
  logInputOk : Bool
  logSnapshotOk : Bool
  engineOk : Bool
  logModelOk : Bool
  modelUri : String
  lbWriteOk : Bool
  leaderLogLoss : Int
  leaderAuc : Int
  lbHeader : List String
  lbRows : List (List String)
deriving Repr

/-- Result of one pipeline invocation: the trace of external calls in program
order, the outcome (normal return or the first uncaught exception), and the
registry state left behind. -/
structure TrainResult where
  events : List Event
  outcome : Except Err Unit
  registry : Registry
deriving Repr

/-- Run status recorded when the `with mlflow.start_run()` block exits:
`finished` on normal exit, `failed` when the body raised. -/
def statusOf : Except Err Unit → RunStatus
  | .ok _ => .finished
  | .error _ => .failed

/-- The fixed H2OAutoML policy both variants construct (lines 58–65 and
165–172): budget-bounded model count, seed 42, class balancing on, ranking by
logloss, GLM and DRF excluded. -/
def fixedPolicy (models : Nat) : Policy :=
  ⟨models, 42, true, "logloss", ["GLM", "DRF"]⟩

/-- Body of the `with mlflow.start_run()` block of `train` (lines 50–88):
log the input-data artifacts, train, log metrics, log the model, resolve the
model artifact URI, and write the leaderboard CSV next to the model when the
URI has the `file:/` scheme (otherwise print a warning and skip it). -/
def trainRunBody (target : String) (models : Nat) (file_path : String)
    (frame' : Frame) (predictors : List String) (env : Env) (rid : Nat) :
    List Event × Except Err Unit :=
  if env.logInputOk then
    let e1 := [Event.logArtifact rid file_path "input_data"]
    if env.logSnapshotOk then
      let e2 := e1 ++ [Event.logArtifact rid (colTypePath file_path) "input_data"]
      let e3 := e2 ++ [Event.engineTrain (fixedPolicy models) predictors target frame']
      if env.engineOk then
        let e4 := e3 ++ [Event.logMetric rid "log_loss" env.leaderLogLoss,
                         Event.logMetric rid "AUC" env.leaderAuc]
        if env.logModelOk then
          let e5 := e4 ++ [Event.logModel rid "model",
                           Event.getArtifactUri rid "model" env.modelUri]
          if pyStartsWith env.modelUri "file:/" then
            let model_path := pyReplace env.modelUri "file:" ""
            if env.lbWriteOk then
              (e5 ++ [Event.writeFile (model_path ++ "/leaderboard.csv")
                        (.csv (env.lbHeader :: env.lbRows)),
                      Event.printMsg "model and leaderboard saved"], .ok ())
            else
              (e5, .error .ioError)
          else
            (e5 ++ [Event.printMsg "unexpected artifact URI"], .ok ())
        else
          (e4, .error .ioError)
      else
        (e3, .error .trainingError)
    else
      (e1, .error .ioError)
  else
    ([], .error .ioError)

/-- The `train(experiment_name, target, models, file_path)` entry point
(lines 16–88): check the input file exists, load it, persist the column-type
snapshot next to the input, compute predictors, factorize the target,
get-or-create the experiment, then run the tracked training block; the
`with` block always closes the run, `finished` on success and `failed` when
the body raised, before the exception propagates. -/
def train (experiment_name target : String) (models : Nat) (file_path : String)
    (env : Env) : TrainResult :=
  if env.fileExists then
    let frame : Frame := ⟨env.frameCols, env.frameTypes, []⟩
    if env.snapshotWriteOk then
      let e1 := [Event.writeFile (colTypePath file_path) (.json frame.typesList)]
      let predictors := predictorsOf frame.col_names target
      if target ∈ frame.col_names then
        let frame' := frame.asfactor target
        let r := resolveTraced env.registry experiment_name
        let rid := env.runId
        let body := trainRunBody target models file_path frame' predictors env rid
        ⟨e1 ++ r.2.2 ++ [.startRun rid] ++ body.1 ++ [.endRun rid (statusOf body.2)],
         body.2, r.2.1⟩
      else
        ⟨e1, .error .invalidTarget, env.registry⟩
    else
      ⟨[], .error .ioError, env.registry⟩
  else
    ⟨[], .error .fileNotFound, env.registry⟩

/-- The get-or-create pattern of `main` (lines 134–138): the `try` branch
creates the experiment and then also looks it up; the `except` branch only
looks it up. The id proceeded with is the looked-up one. -/
def mainResolveTraced (reg : Registry) (name : String) :
    Nat × Registry × List Event :=
  match create_experiment reg name with
  | .ok (_, reg') =>
      let id := (get_experiment_by_name reg' name).getD 0
      (id, reg', [.registryCreate name id, .registryLookup name id])
  | .error _ =>
      let id := (get_experiment_by_name reg name).getD 0
      (id, reg, [.registryCreateFailed name, .registryLookup name id])

/-- Body of the `with mlflow.start_run()` block of `main` (lines 164–195):
train, log metrics, log the model, print the resolved artifact URI, then
write the leaderboard CSV to the string-interpolated path
`mlruns/{exp_id}/{run_id}/artifacts/model/leaderboard.csv`. -/
def mainRunBody (target : String) (models : Nat) (frame' : Frame)
    (predictors : List String) (env : Env) (expId rid : Nat) :
    List Event × Except Err Unit :=
  let e1 := [Event.engineTrain (fixedPolicy models) predictors target frame']
  if env.engineOk then
    let e2 := e1 ++ [Event.logMetric rid "log_loss" env.leaderLogLoss,
                     Event.logMetric rid "AUC" env.leaderAuc]
    if env.logModelOk then
      let e3 := e2 ++ [Event.logModel rid "model",
                       Event.getArtifactUri rid "model" env.modelUri,
                       Event.printMsg "AutoML best model saved"]
      let lbPath := "mlruns/" ++ toString expId ++ "/" ++ toString rid
                      ++ "/artifacts/model/leaderboard.csv"
      if env.lbWriteOk then
        (e3 ++ [Event.writeFile lbPath (.csv (env.lbHeader :: env.lbRows)),
                Event.printMsg "AutoML Complete"], .ok ())
      else
        (e3, .error .ioError)
    else
      (e2, .error .ioError)
  else
    (e1, .error .trainingError)

/-- The CLI entry point `main()` (lines 120–195): get-or-create the
experiment first, then load the fixed input `data/processed/train.csv`
(failing there if it does not exist), persist the column-type snapshot,
compute predictors, factorize the target, and run the tracked training
block; the `with` block always closes the run before propagating. -/
def mainFn (experiment_name target : String) (models : Nat) (env : Env) :
    TrainResult :=
  let r := mainResolveTraced env.registry experiment_name
  if env.fileExists then
    let frame : Frame := ⟨env.frameCols, env.frameTypes, []⟩
    if env.snapshotWriteOk then
      let e1 := r.2.2 ++ [Event.writeFile "data/processed/train_col_types.json"
                            (.json frame.typesList)]
      let predictors := predictorsOf frame.col_names target
      if target ∈ frame.col_names then
        let frame' := frame.asfactor target
        let rid := env.runId
        let body := mainRunBody target models frame' predictors env r.1 rid
        ⟨e1 ++ [.startRun rid] ++ body.1 ++ [.endRun rid (statusOf body.2)],
         body.2, r.2.1⟩
      else
        ⟨e1, .error .invalidTarget, r.2.1⟩
    else
      ⟨r.2.2, .error .ioError, r.2.1⟩
  else
    ⟨r.2.2, .error .fileNotFound, r.2.1⟩

/-- Every started run in the trace is closed exactly once: the end-run events
are exactly one `endRun` per `startRun`, with the same run id, carrying
`finished` when the invocation returned normally and `failed` when it raised. -/
def closesRuns (r : TrainResult) : Prop :=
  r.events.filter Event.isEndRun
    = (r.events.filter Event.isStartRun).map
        (fun e =>
          match e with
          | .startRun rid => .endRun rid (statusOf r.outcome)
          | e => e)

/-- Model-artifact publish or leaderboard CSV write: the two events whose
relative order the leaderboard-export contract constrains. -/
def Event.isModelOrLbWrite (e : Event) : Bool :=
  e.isLogModel || e.isCsvWrite

/-- An empty persisted registry. -/
def reg0 : Registry := ⟨[], 0⟩

/-- A fully healthy environment: the input file exists, the frame has the
spec's example columns with `claim` as an integer target, every external step
succeeds, and the tracking store resolves the model artifact to a
`file:/`-scheme URI. -/
def envOk : Env :=
  { registry := reg0, fileExists := true,
    frameCols := ["age", "income", "claim"],
    frameTypes := [("age", "int"), ("income", "real"), ("claim", "int")],
    runId := 0, snapshotWriteOk := true, logInputOk := true,
    logSnapshotOk := true, engineOk := true, logModelOk := true,
    modelUri := "file:/app/backend/mlruns/0/r0/artifacts/model",
    lbWriteOk := true, leaderLogLoss := 1, leaderAuc := 1,
    lbHeader := ["model_id", "logloss"],
    lbRows := [["m1", "3"], ["m2", "4"]] }

/-- `envOk` with a missing input file. -/
def envNoFile : Env := { envOk with fileExists := false }

/-- `envOk` against a registry that already holds the experiment under id 3,
with run id 7 and a tracking store that resolved the model artifact to a
relocated storage location. -/
def envRelocated : Env :=
  { envOk with registry := ⟨[("automl-insurance", 3)], 4⟩, runId := 7,
               modelUri := "file:/store/relocated/model" }

/-- `envOk` with a tracking store that resolves the model artifact to a
non-`file:/`-scheme URI. -/
def envNonFileUri : Env :=
  { envOk with modelUri := "mlflow-artifacts:/0/r0/artifacts/model" }

/-- The frame `envOk`'s loader returns, after the target `claim` has been
factorized. -/
def frClaim : Frame := (Frame.mk envOk.frameCols envOk.frameTypes []).asfactor "claim"

theorem resolveTraced_filter_startRun (reg : Registry) (name : String) :
    (resolveTraced reg name).2.2.filter Event.isStartRun = [] := by
  unfold resolveTraced create_experiment
  cases h : reg.experiments.lookup name <;> simp [h, Event.isStartRun]

theorem resolveTraced_filter_endRun (reg : Registry) (name : String) :
    (resolveTraced reg name).2.2.filter Event.isEndRun = [] := by
  unfold resolveTraced create_experiment
  cases h : reg.experiments.lookup name <;> simp [h, Event.isEndRun]

theorem resolveTraced_filter_csvWrite (reg : Registry) (name : String) :
    (resolveTraced reg name).2.2.filter Event.isCsvWrite = [] := by
  unfold resolveTraced create_experiment
  cases h : reg.experiments.lookup name <;> simp [h, Event.isCsvWrite]

theorem resolveTraced_filter_modelOrLb (reg : Registry) (name : String) :
    (resolveTraced reg name).2.2.filter Event.isModelOrLbWrite = [] := by
  unfold resolveTraced create_experiment
  cases h : reg.experiments.lookup name <;>
    simp [h, Event.isModelOrLbWrite, Event.isLogModel, Event.isCsvWrite]

theorem resolveTraced_no_engine (reg : Registry) (name : String)
    (pol : Policy) (x : List String) (y : String) (fr : Frame) :
    Event.engineTrain pol x y fr ∉ (resolveTraced reg name).2.2 := by
  unfold resolveTraced create_experiment
  cases h : reg.experiments.lookup name <;> simp [h]

theorem mainResolveTraced_filter_startRun (reg : Registry) (name : String) :
    (mainResolveTraced reg name).2.2.filter Event.isStartRun = [] := by
  unfold mainResolveTraced create_experiment
  cases h : reg.experiments.lookup name <;> simp [h, Event.isStartRun]

theorem mainResolveTraced_filter_endRun (reg : Registry) (name : String) :
    (mainResolveTraced reg name).2.2.filter Event.isEndRun = [] := by
  unfold mainResolveTraced create_experiment
  cases h : reg.experiments.lookup name <;> simp [h, Event.isEndRun]

theorem mainResolveTraced_filter_engine (reg : Registry) (name : String) :
    (mainResolveTraced reg name).2.2.filter Event.isEngine = [] := by
  unfold mainResolveTraced create_experiment
  cases h : reg.experiments.lookup name <;> simp [h, Event.isEngine]

theorem mainResolveTraced_filter_logArtifact (reg : Registry) (name : String) :
    (mainResolveTraced reg name).2.2.filter Event.isLogArtifact = [] := by
  unfold mainResolveTraced create_experiment
  cases h : reg.experiments.lookup name <;> simp [h, Event.isLogArtifact]

theorem mainResolveTraced_filter_modelOrLb (reg : Registry) (name : String) :
    (mainResolveTraced reg name).2.2.filter Event.isModelOrLbWrite = [] := by
  unfold mainResolveTraced create_experiment
  cases h : reg.experiments.lookup name <;>
    simp [h, Event.isModelOrLbWrite, Event.isLogModel, Event.isCsvWrite]

theorem mainResolveTraced_no_engine (reg : Registry) (name : String)
    (pol : Policy) (x : List String) (y : String) (fr : Frame) :
    Event.engineTrain pol x y fr ∉ (mainResolveTraced reg name).2.2 := by
  unfold mainResolveTraced create_experiment
  cases h : reg.experiments.lookup name <;> simp [h]

theorem trainRunBody_filter_startRun (t : String) (m : Nat) (p : String)
    (fr : Frame) (pr : List String) (env : Env) (rid : Nat) :
    (trainRunBody t m p fr pr env rid).1.filter Event.isStartRun = [] := by
  unfold trainRunBody
  split_ifs <;> simp [Event.isStartRun]

theorem trainRunBody_filter_endRun (t : String) (m : Nat) (p : String)
    (fr : Frame) (pr : List String) (env : Env) (rid : Nat) :
    (trainRunBody t m p fr pr env rid).1.filter Event.isEndRun = [] := by
  unfold trainRunBody
  split_ifs <;> simp [Event.isEndRun]

theorem mainRunBody_filter_startRun (t : String) (m : Nat)
    (fr : Frame) (pr : List String) (env : Env) (expId rid : Nat) :
    (mainRunBody t m fr pr env expId rid).1.filter Event.isStartRun = [] := by
  unfold mainRunBody
  split_ifs <;> simp [Event.isStartRun]

theorem mainRunBody_filter_endRun (t : String) (m : Nat)
    (fr : Frame) (pr : List String) (env : Env) (expId rid : Nat) :
    (mainRunBody t m fr pr env expId rid).1.filter Event.isEndRun = [] := by
  unfold mainRunBody
  split_ifs <;> simp [Event.isEndRun]

theorem trainRunBody_engine_mem (t : String) (m : Nat) (p : String) (fr : Frame)
    (pr : List String) (env : Env) (rid : Nat) (pol : Policy) (x : List String)
    (y : String) (fr2 : Frame)
    (h : Event.engineTrain pol x y fr2 ∈ (trainRunBody t m p fr pr env rid).1) :
    pol = fixedPolicy m ∧ x = pr ∧ y = t ∧ fr2 = fr := by
  unfold trainRunBody at h
  split_ifs at h <;> simp at h <;> tauto

theorem mainRunBody_engine_mem (t : String) (m : Nat) (fr : Frame)
    (pr : List String) (env : Env) (expId rid : Nat) (pol : Policy) (x : List String)
    (y : String) (fr2 : Frame)
    (h : Event.engineTrain pol x y fr2 ∈ (mainRunBody t m fr pr env expId rid).1) :
    pol = fixedPolicy m ∧ x = pr ∧ y = t ∧ fr2 = fr := by
  unfold mainRunBody at h
  split_ifs at h <;> simp at h <;> tauto

theorem train_engine_mem (en t : String) (m : Nat) (p : String) (env : Env)
    (pol : Policy) (x : List String) (y : String) (fr : Frame)
    (h : Event.engineTrain pol x y fr ∈ (train en t m p env).events) :
    pol = fixedPolicy m ∧ x = predictorsOf env.frameCols t ∧ y = t
      ∧ fr = (Frame.mk env.frameCols env.frameTypes []).asfactor t := by
  unfold train at h
  by_cases h1 : env.fileExists = true <;> by_cases h2 : env.snapshotWriteOk = true <;>
    by_cases hm : t ∈ env.frameCols <;>
      simp [h1, h2, hm, resolveTraced_no_engine] at h
  exact trainRunBody_engine_mem _ _ _ _ _ _ _ _ _ _ _ h

theorem mainFn_engine_mem (en t : String) (m : Nat) (env : Env)
    (pol : Policy) (x : List String) (y : String) (fr : Frame)
    (h : Event.engineTrain pol x y fr ∈ (mainFn en t m env).events) :
    pol = fixedPolicy m ∧ x = predictorsOf env.frameCols t ∧ y = t
      ∧ fr = (Frame.mk env.frameCols env.frameTypes []).asfactor t := by
  unfold mainFn at h
  by_cases h1 : env.fileExists = true <;> by_cases h2 : env.snapshotWriteOk = true <;>
    by_cases hm : t ∈ env.frameCols <;>
      simp [h1, h2, hm, mainResolveTraced_no_engine] at h
  exact mainRunBody_engine_mem _ _ _ _ _ _ _ _ _ _ _ h

theorem frame_typesList_unfactored (cols : List String) (ts : List (String × String)) :
    (Frame.mk cols ts []).typesList = ts := by
  simp [Frame.typesList]

theorem frame_typesList_asfactor (cols : List String) (ts : List (String × String)) (t : String) :
    ((Frame.mk cols ts []).asfactor t).typesList
      = ts.map (fun q => if q.1 = t then (q.1, "enum") else q) := by
  simp [Frame.typesList, Frame.asfactor]

/-- C1: experiment resolution is idempotent. Against the same persisted
registry state (so also from a fresh process), resolving a name a second time
yields the same experiment id and leaves the registry unchanged; the second
resolution goes through the failed-create-then-lookup path, returning the
existing experiment rather than creating a new one. This holds for the
get-or-create pattern of `train` (`resolve`) and of `main`
(`mainResolveTraced`), and both patterns agree on the resolved id. -/
theorem c1_resolution_idempotent (reg : Registry) (name : String) :
    resolve (resolve reg name).2 name = resolve reg name
    ∧ (resolveTraced (resolve reg name).2 name).2.2
        = [.registryCreateFailed name, .registryLookup name (resolve reg name).1]
    ∧ (mainResolveTraced (mainResolveTraced reg name).2.1 name).1
        = (mainResolveTraced reg name).1
    ∧ (mainResolveTraced (mainResolveTraced reg name).2.1 name).2.1
        = (mainResolveTraced reg name).2.1
    ∧ (mainResolveTraced reg name).1 = (resolve reg name).1 := by
  unfold resolve resolveTraced mainResolveTraced create_experiment get_experiment_by_name
  cases h : reg.experiments.lookup name <;> simp [h, List.lookup]

/-- C2: for every loaded frame and every target column name not among the
frame's columns, both variants fail with the invalid-target error, make no
call to the training engine, and start no run in the tracking store. -/
theorem c2_missing_target_fails_fast (en t : String) (m : Nat) (p : String) (env : Env)
    (hf : env.fileExists = true) (hs : env.snapshotWriteOk = true)
    (ht : t ∉ env.frameCols) :
    ((train en t m p env).outcome = .error .invalidTarget
      ∧ (train en t m p env).events.filter Event.isEngine = []
      ∧ (train en t m p env).events.filter Event.isStartRun = [])
    ∧ ((mainFn en t m env).outcome = .error .invalidTarget
      ∧ (mainFn en t m env).events.filter Event.isEngine = []
      ∧ (mainFn en t m env).events.filter Event.isStartRun = []) := by
  unfold train mainFn
  simp [hf, hs, ht, List.filter_append, Event.isEngine, Event.isStartRun,
    mainResolveTraced_filter_engine, mainResolveTraced_filter_startRun]

/-- C2 witness: with the example frame and target `nonexistent_col`, `train`
fails with the invalid-target error and never calls the engine. -/
theorem c2_missing_target_fails_fast_witness :
    ("nonexistent_col" ∉ envOk.frameCols)
    ∧ (train "automl-insurance" "nonexistent_col" 10 "data/processed/train.csv" envOk).outcome
        = .error .invalidTarget
    ∧ (train "automl-insurance" "nonexistent_col" 10
        "data/processed/train.csv" envOk).events.filter Event.isEngine = [] :=
  ⟨by decide,
   (c2_missing_target_fails_fast "automl-insurance" "nonexistent_col" 10
      "data/processed/train.csv" envOk rfl rfl (by decide)).1.1,
   (c2_missing_target_fails_fast "automl-insurance" "nonexistent_col" 10
      "data/processed/train.csv" envOk rfl rfl (by decide)).1.2.1⟩

/-- C3 (amended): when the input path refers to no existing file, the
artifact-logging variant `train` fails with `FileNotFoundError` before any
external call at all — its trace is empty, so in particular the tracking
store and the engine are never touched. The CLI variant `main` also fails
with the loader's file-not-found error before any run is started and before
any engine call, but only after the experiment registry has already been
contacted by its get-or-create step. -/
theorem c3_missing_input_fails_fast (en t : String) (m : Nat) (p : String) (env : Env)
    (hf : env.fileExists = false) :
    ((train en t m p env).outcome = .error .fileNotFound
      ∧ (train en t m p env).events = [])
    ∧ ((mainFn en t m env).outcome = .error .fileNotFound
      ∧ (mainFn en t m env).events.filter Event.isStartRun = []
      ∧ (mainFn en t m env).events.filter Event.isEngine = []) := by
  unfold train mainFn
  simp [hf, mainResolveTraced_filter_startRun, mainResolveTraced_filter_engine]

/-- C3 counterexample: in the CLI variant, with a missing input file the
invocation does fail with the file-not-found error, but the experiment
registry has already been contacted (a create followed by a lookup), refuting
the claim that the failure precedes every tracking-store call. -/
theorem c3_counterexample_registry_contacted :
    (mainFn "automl-insurance" "claim" 10 envNoFile).outcome = .error .fileNotFound
    ∧ (mainFn "automl-insurance" "claim" 10 envNoFile).events.filter Event.isTrackingStore
        = [.registryCreate "automl-insurance" 0, .registryLookup "automl-insurance" 0] := by
  decide

/-- C3 witness: with a missing input file, `train` leaves an empty trace and
`main` starts no run. -/
theorem c3_missing_input_fails_fast_witness :
    envNoFile.fileExists = false
    ∧ (train "automl-insurance" "claim" 10 "data/processed/train.csv" envNoFile).events = []
    ∧ (mainFn "automl-insurance" "claim" 10 envNoFile).events.filter Event.isStartRun = [] :=
  ⟨rfl,
   (c3_missing_input_fails_fast "automl-insurance" "claim" 10
      "data/processed/train.csv" envNoFile rfl).1.2,
   (c3_missing_input_fails_fast "automl-insurance" "claim" 10
      "data/processed/train.csv" envNoFile rfl).2.2.1⟩

/-- C4: in both variants, the column-type snapshot persisted to disk is
exactly the raw loader-inferred mapping of the loaded frame — the write
happens before the target is factorized — while the frame obtained by
factorizing the target reports the categorical tag `"enum"` for the target
column in place of its raw type. -/
theorem c4_snapshot_before_factorization (en t : String) (m : Nat) (p : String) (env : Env)
    (hf : env.fileExists = true) (hs : env.snapshotWriteOk = true)
    (hm : t ∈ env.frameCols) :
    Event.writeFile (colTypePath p) (.json env.frameTypes) ∈ (train en t m p env).events
    ∧ Event.writeFile "data/processed/train_col_types.json" (.json env.frameTypes)
        ∈ (mainFn en t m env).events
    ∧ ((Frame.mk env.frameCols env.frameTypes []).asfactor t).typesList
        = env.frameTypes.map (fun q => if q.1 = t then (q.1, "enum") else q) := by
  refine ⟨?_, ?_, frame_typesList_asfactor _ _ _⟩
  · unfold train
    simp [hf, hs, hm, frame_typesList_unfactored]
  · unfold mainFn
    simp [hf, hs, hm, frame_typesList_unfactored]

/-- C4 witness: for the example frame the persisted snapshot records the
target `claim` as `"int"`, its raw type, while the factorized frame would
report `"enum"` for it. -/
theorem c4_snapshot_before_factorization_witness :
    ("claim" ∈ envOk.frameCols)
    ∧ Event.writeFile (colTypePath "data/processed/train.csv") (.json envOk.frameTypes)
        ∈ (train "automl-insurance" "claim" 10 "data/processed/train.csv" envOk).events
    ∧ envOk.frameTypes.lookup "claim" = some "int"
    ∧ (((Frame.mk envOk.frameCols envOk.frameTypes []).asfactor "claim").typesList).lookup "claim"
        = some "enum" :=
  ⟨by decide,
   (c4_snapshot_before_factorization "automl-insurance" "claim" 10
      "data/processed/train.csv" envOk rfl rfl (by decide)).1,
   by decide, by decide⟩

/-- C5 (amended): in every successful run of either variant the leaderboard
CSV is written after the leader-model artifact is published — the subtrace of
model-publish and leaderboard-write events is exactly the model publish
followed by the single leaderboard write. In the artifact-logging variant
`train` the destination is derived from the model artifact URI dynamically
resolved from the tracking store. In the CLI variant `main`, however, the
destination is the fixed interpolated path
`mlruns/<experiment_id>/<run_id>/artifacts/model/leaderboard.csv`, not a path
derived from the resolved URI. -/
theorem c5_leaderboard_after_model (en t : String) (m : Nat) (p : String) (env : Env)
    (hf : env.fileExists = true) (hs : env.snapshotWriteOk = true)
    (hm : t ∈ env.frameCols) (h3 : env.logInputOk = true) (h4 : env.logSnapshotOk = true)
    (h5 : env.engineOk = true) (h6 : env.logModelOk = true) (h7 : env.lbWriteOk = true)
    (hu : pyStartsWith env.modelUri "file:/" = true) :
    ((train en t m p env).events.filter Event.isModelOrLbWrite
        = [.logModel env.runId "model",
           .writeFile (pyReplace env.modelUri "file:" "" ++ "/leaderboard.csv")
             (.csv (env.lbHeader :: env.lbRows))])
    ∧ ((mainFn en t m env).events.filter Event.isModelOrLbWrite
        = [.logModel env.runId "model",
           .writeFile ("mlruns/" ++ toString (mainResolveTraced env.registry en).1 ++ "/"
               ++ toString env.runId ++ "/artifacts/model/leaderboard.csv")
             (.csv (env.lbHeader :: env.lbRows))]) := by
  constructor
  · unfold train trainRunBody
    simp [hf, hs, hm, h3, h4, h5, h6, h7, hu, List.filter_append,
      resolveTraced_filter_modelOrLb, Event.isModelOrLbWrite, Event.isLogModel,
      Event.isCsvWrite]
  · unfold mainFn mainRunBody
    simp [hf, hs, hm, h5, h6, h7, List.filter_append,
      mainResolveTraced_filter_modelOrLb, Event.isModelOrLbWrite, Event.isLogModel,
      Event.isCsvWrite]

/-- C5 counterexample: in the CLI variant, with the tracking store resolving
the model artifact to the relocated location `file:/store/relocated/model`,
the run succeeds but the leaderboard is written to the interpolated path
`mlruns/3/7/artifacts/model/leaderboard.csv`, which is not the path derived
from the resolved storage location — refuting the claim that the destination
is derived from the dynamically resolved location rather than interpolated
from experiment and run ids. -/
theorem c5_counterexample_interpolated_path :
    (mainFn "automl-insurance" "claim" 10 envRelocated).outcome = .ok ()
    ∧ (mainFn "automl-insurance" "claim" 10 envRelocated).events.filter Event.isCsvWrite
        = [.writeFile "mlruns/3/7/artifacts/model/leaderboard.csv"
             (.csv (envRelocated.lbHeader :: envRelocated.lbRows))]
    ∧ Event.getArtifactUri 7 "model" "file:/store/relocated/model"
        ∈ (mainFn "automl-insurance" "claim" 10 envRelocated).events
    ∧ "mlruns/3/7/artifacts/model/leaderboard.csv"
        ≠ pyReplace envRelocated.modelUri "file:" "" ++ "/leaderboard.csv" := by
  decide

/-- C5 witness: in the healthy environment, `train` publishes the model and
then writes the leaderboard next to the resolved model location. -/
theorem c5_leaderboard_after_model_witness :
    pyStartsWith envOk.modelUri "file:/" = true
    ∧ (train "automl-insurance" "claim" 10 "data/processed/train.csv" envOk).events.filter
        Event.isModelOrLbWrite
        = [.logModel 0 "model",
           .writeFile "/app/backend/mlruns/0/r0/artifacts/model/leaderboard.csv"
             (.csv (envOk.lbHeader :: envOk.lbRows))] := by
  refine ⟨by decide, ?_⟩
  have h := (c5_leaderboard_after_model "automl-insurance" "claim" 10
      "data/processed/train.csv" envOk rfl rfl (by decide) rfl rfl rfl rfl rfl (by decide)).1
  exact h.trans (by decide)

/-- C6: on every exit path of both variants — whatever the outcomes of the
file check, the target check and every fallible external step — each started
run is closed exactly once before the invocation returns: the end-run events
of the trace are exactly one `endRun` per `startRun`, with the same run id,
marked `finished` when the invocation returned normally and `failed` when it
raised; no run is ever left in the running state. -/
theorem c6_run_closed_exactly_once (en t : String) (m : Nat) (p : String) (env : Env) :
    closesRuns (train en t m p env) ∧ closesRuns (mainFn en t m env) := by
  constructor
  · unfold closesRuns train
    by_cases h1 : env.fileExists = true <;> by_cases h2 : env.snapshotWriteOk = true <;>
      by_cases hm : t ∈ env.frameCols <;>
        simp [h1, h2, hm, List.filter_append, trainRunBody_filter_startRun,
          trainRunBody_filter_endRun, resolveTraced_filter_startRun,
          resolveTraced_filter_endRun, Event.isStartRun, Event.isEndRun]
  · unfold closesRuns mainFn
    by_cases h1 : env.fileExists = true <;> by_cases h2 : env.snapshotWriteOk = true <;>
      by_cases hm : t ∈ env.frameCols <;>
        simp [h1, h2, hm, List.filter_append, mainRunBody_filter_startRun,
          mainRunBody_filter_endRun, mainResolveTraced_filter_startRun,
          mainResolveTraced_filter_endRun, Event.isStartRun, Event.isEndRun]

/-- C7: every call either variant makes to the training engine uses the fixed
policy — candidate count bounded by the supplied model budget, seed 42, class
balancing enabled, candidates ranked by logarithmic loss, and the fixed
exclusion set of the GLM and DRF algorithm families — on the supplied target,
with the predictor columns computed from the frame, and with the target
already factorized to categorical in the frame handed to the engine. -/
theorem c7_fixed_engine_policy (en t : String) (m : Nat) (p : String) (env : Env) :
    (∀ pol x y fr, Event.engineTrain pol x y fr ∈ (train en t m p env).events →
        pol = fixedPolicy m ∧ pol.max_models = m ∧ pol.seed = 42
          ∧ pol.balance_classes = true ∧ pol.sort_metric = "logloss"
          ∧ pol.exclude_algos = ["GLM", "DRF"]
          ∧ y = t ∧ x = predictorsOf env.frameCols t ∧ t ∈ fr.factored)
    ∧ (∀ pol x y fr, Event.engineTrain pol x y fr ∈ (mainFn en t m env).events →
        pol = fixedPolicy m ∧ pol.max_models = m ∧ pol.seed = 42
          ∧ pol.balance_classes = true ∧ pol.sort_metric = "logloss"
          ∧ pol.exclude_algos = ["GLM", "DRF"]
          ∧ y = t ∧ x = predictorsOf env.frameCols t ∧ t ∈ fr.factored) := by
  constructor
  · intro pol x y fr h
    obtain ⟨rfl, rfl, rfl, rfl⟩ := train_engine_mem en t m p env pol x y fr h
    simp [fixedPolicy, Frame.asfactor]
  · intro pol x y fr h
    obtain ⟨rfl, rfl, rfl, rfl⟩ := mainFn_engine_mem en t m env pol x y fr h
    simp [fixedPolicy, Frame.asfactor]

/-- C7 witness: in the healthy environment `train` calls the engine once,
with the fixed policy and the factorized target. -/
theorem c7_fixed_engine_policy_witness :
    (Event.engineTrain (fixedPolicy 10) ["age", "income"] "claim" frClaim
        ∈ (train "automl-insurance" "claim" 10 "data/processed/train.csv" envOk).events)
    ∧ (fixedPolicy 10).max_models = 10 ∧ (fixedPolicy 10).seed = 42
    ∧ (fixedPolicy 10).balance_classes = true ∧ (fixedPolicy 10).sort_metric = "logloss"
    ∧ (fixedPolicy 10).exclude_algos = ["GLM", "DRF"]
    ∧ "claim" ∈ frClaim.factored := by
  have hmem : Event.engineTrain (fixedPolicy 10) ["age", "income"] "claim" frClaim
      ∈ (train "automl-insurance" "claim" 10 "data/processed/train.csv" envOk).events := by
    decide
  have h := (c7_fixed_engine_policy "automl-insurance" "claim" 10
      "data/processed/train.csv" envOk).1 (fixedPolicy 10) ["age", "income"] "claim" frClaim hmem
  exact ⟨hmem, h.2.1, h.2.2.1, h.2.2.2.1, h.2.2.2.2.1, h.2.2.2.2.2.1, h.2.2.2.2.2.2.2.2⟩

/-- C8 (amended): in the artifact-logging variant `train`, every run that
reaches the publishing phase publishes under the run's namespace a copy of
the raw input dataset and the column-type snapshot (both under
`input_data`), logs the leader's log-loss and AUC as run metrics, and
publishes the serialized leader model under `model`; the leaderboard is
written as a CSV whose first row is the header and whose remaining rows
preserve the engine's rank order, alongside the model, exactly when the
model artifact URI resolved from the tracking store has the `file:/` scheme
— when it does not, the run still finishes successfully but no leaderboard
CSV is written. In the CLI variant `main`, a successful run logs the two
metrics and the model and writes the leaderboard CSV, but publishes no
artifact copy of the raw input dataset or of the snapshot under the run's
namespace. -/
theorem c8_published_artifacts (en t : String) (m : Nat) (p : String) (env : Env)
    (hf : env.fileExists = true) (hs : env.snapshotWriteOk = true)
    (hm : t ∈ env.frameCols) (h3 : env.logInputOk = true) (h4 : env.logSnapshotOk = true)
    (h5 : env.engineOk = true) (h6 : env.logModelOk = true) :
    (Event.logArtifact env.runId p "input_data" ∈ (train en t m p env).events
      ∧ Event.logArtifact env.runId (colTypePath p) "input_data" ∈ (train en t m p env).events
      ∧ Event.logMetric env.runId "log_loss" env.leaderLogLoss ∈ (train en t m p env).events
      ∧ Event.logMetric env.runId "AUC" env.leaderAuc ∈ (train en t m p env).events
      ∧ Event.logModel env.runId "model" ∈ (train en t m p env).events)
    ∧ (pyStartsWith env.modelUri "file:/" = true → env.lbWriteOk = true →
        (train en t m p env).outcome = .ok ()
          ∧ Event.writeFile (pyReplace env.modelUri "file:" "" ++ "/leaderboard.csv")
              (.csv (env.lbHeader :: env.lbRows)) ∈ (train en t m p env).events)
    ∧ (pyStartsWith env.modelUri "file:/" = false →
        (train en t m p env).outcome = .ok ()
          ∧ (train en t m p env).events.filter Event.isCsvWrite = [])
    ∧ (env.lbWriteOk = true →
        (mainFn en t m env).outcome = .ok ()
          ∧ Event.logMetric env.runId "log_loss" env.leaderLogLoss ∈ (mainFn en t m env).events
          ∧ Event.logMetric env.runId "AUC" env.leaderAuc ∈ (mainFn en t m env).events
          ∧ Event.logModel env.runId "model" ∈ (mainFn en t m env).events
          ∧ Event.writeFile ("mlruns/" ++ toString (mainResolveTraced env.registry en).1 ++ "/"
                ++ toString env.runId ++ "/artifacts/model/leaderboard.csv")
              (.csv (env.lbHeader :: env.lbRows)) ∈ (mainFn en t m env).events
          ∧ (mainFn en t m env).events.filter Event.isLogArtifact = []) := by
  refine ⟨?_, ?_, ?_, ?_⟩
  · unfold train trainRunBody
    by_cases hu : pyStartsWith env.modelUri "file:/" = true <;>
      by_cases h7 : env.lbWriteOk = true <;>
        simp [hf, hs, hm, h3, h4, h5, h6, hu, h7]
  · intro hu h7
    unfold train trainRunBody
    simp [hf, hs, hm, h3, h4, h5, h6, hu, h7]
  · intro hu
    unfold train trainRunBody
    simp [hf, hs, hm, h3, h4, h5, h6, hu, List.filter_append,
      resolveTraced_filter_csvWrite, Event.isCsvWrite]
  · intro h7
    unfold mainFn mainRunBody
    simp [hf, hs, hm, h5, h6, h7, List.filter_append,
      mainResolveTraced_filter_logArtifact, Event.isLogArtifact]

/-- C8 counterexample: in the CLI variant a fully successful run records no
`log_artifact` call at all, so neither the raw input dataset nor the
column-type snapshot is published under the run's artifact namespace —
refuting the claim for every successful run of the program. -/
theorem c8_counterexample_no_input_artifact :
    (mainFn "automl-insurance" "claim" 10 envOk).outcome = .ok ()
    ∧ (mainFn "automl-insurance" "claim" 10 envOk).events.filter Event.isLogArtifact = [] := by
  decide

/-- C8 witness: in the healthy environment (where the resolved model URI has
the `file:/` scheme) `train` succeeds, publishes the input dataset under
`input_data`, logs the leader's log-loss, and writes the leaderboard CSV next
to the model, while `main`'s successful run records no artifact copy. -/
theorem c8_published_artifacts_witness :
    envOk.fileExists = true
    ∧ pyStartsWith envOk.modelUri "file:/" = true
    ∧ (train "automl-insurance" "claim" 10 "data/processed/train.csv" envOk).outcome = .ok ()
    ∧ Event.logArtifact 0 "data/processed/train.csv" "input_data"
        ∈ (train "automl-insurance" "claim" 10 "data/processed/train.csv" envOk).events
    ∧ Event.logMetric 0 "log_loss" 1
        ∈ (train "automl-insurance" "claim" 10 "data/processed/train.csv" envOk).events
    ∧ Event.writeFile (pyReplace envOk.modelUri "file:" "" ++ "/leaderboard.csv")
        (.csv (envOk.lbHeader :: envOk.lbRows))
        ∈ (train "automl-insurance" "claim" 10 "data/processed/train.csv" envOk).events
    ∧ (mainFn "automl-insurance" "claim" 10 envOk).outcome = .ok ()
    ∧ (mainFn "automl-insurance" "claim" 10 envOk).events.filter Event.isLogArtifact = [] := by
  have h := c8_published_artifacts "automl-insurance" "claim" 10
      "data/processed/train.csv" envOk rfl rfl (by decide) rfl rfl rfl rfl
  have hb := h.2.1 (by decide) rfl
  have hd := h.2.2.2 rfl
  exact ⟨rfl, by decide, hb.1, h.1.1, h.1.2.2.1, hb.2, hd.1, hd.2.2.2.2.2⟩

/-- C9: the predictor column list passed to the training engine by either
variant is exactly the frame's column list with the target column filtered
out: it is a sublist of the frame's columns (so the original order is
preserved and nothing is added), and a column belongs to it exactly when it
is a frame column different from the target (so only the target is
dropped). -/
theorem c9_predictor_columns (en t : String) (m : Nat) (p : String) (env : Env) :
    (∀ pol x y fr, Event.engineTrain pol x y fr ∈ (train en t m p env).events →
        x = env.frameCols.filter (fun n => n ≠ t)
          ∧ List.Sublist x env.frameCols
          ∧ ∀ c, c ∈ x ↔ (c ∈ env.frameCols ∧ c ≠ t))
    ∧ (∀ pol x y fr, Event.engineTrain pol x y fr ∈ (mainFn en t m env).events →
        x = env.frameCols.filter (fun n => n ≠ t)
          ∧ List.Sublist x env.frameCols
          ∧ ∀ c, c ∈ x ↔ (c ∈ env.frameCols ∧ c ≠ t)) := by
  constructor
  · intro pol x y fr h
    obtain ⟨-, rfl, rfl, -⟩ := train_engine_mem en t m p env pol x y fr h
    exact ⟨rfl, List.filter_sublist _, fun c => by simp [predictorsOf]⟩
  · intro pol x y fr h
    obtain ⟨-, rfl, rfl, -⟩ := mainFn_engine_mem en t m env pol x y fr h
    exact ⟨rfl, List.filter_sublist _, fun c => by simp [predictorsOf]⟩

/-- C9 witness: with columns `age, income, claim` and target `claim`, the
engine receives exactly `age, income`, in order. -/
theorem c9_predictor_columns_witness :
    (Event.engineTrain (fixedPolicy 10) ["age", "income"] "claim" frClaim
        ∈ (train "automl-insurance" "claim" 10 "data/processed/train.csv" envOk).events)
    ∧ ["age", "income"] = envOk.frameCols.filter (fun n => n ≠ "claim")
    ∧ List.Sublist ["age", "income"] envOk.frameCols
    ∧ ("income" ∈ (["age", "income"] : List String)
        ↔ ("income" ∈ envOk.frameCols ∧ "income" ≠ "claim")) := by
  have hmem : Event.engineTrain (fixedPolicy 10) ["age", "income"] "claim" frClaim
      ∈ (train "automl-insurance" "claim" 10 "data/processed/train.csv" envOk).events := by
    decide
  have h := (c9_predictor_columns "automl-insurance" "claim" 10
      "data/processed/train.csv" envOk).1 (fixedPolicy 10) ["age", "income"] "claim" frClaim hmem
  exact ⟨hmem, h.1, h.2.1, h.2.2 "income"⟩

/-- C10: in the artifact-logging variant, when the model artifact URI
resolved from the tracking store does not begin with the `file:/` scheme, the
leaderboard export is silently skipped: the invocation still returns
normally, no leaderboard CSV is written anywhere, the run is closed as
finished, and only a warning message is printed. -/
theorem c10_non_file_uri_skips_leaderboard (en t : String) (m : Nat) (p : String) (env : Env)
    (hf : env.fileExists = true) (hs : env.snapshotWriteOk = true)
    (hm : t ∈ env.frameCols) (h3 : env.logInputOk = true) (h4 : env.logSnapshotOk = true)
    (h5 : env.engineOk = true) (h6 : env.logModelOk = true)
    (hu : pyStartsWith env.modelUri "file:/" = false) :
    (train en t m p env).outcome = .ok ()
    ∧ (train en t m p env).events.filter Event.isCsvWrite = []
    ∧ Event.endRun env.runId .finished ∈ (train en t m p env).events
    ∧ Event.printMsg "unexpected artifact URI" ∈ (train en t m p env).events := by
  unfold train trainRunBody
  simp [hf, hs, hm, h3, h4, h5, h6, hu, List.filter_append,
    resolveTraced_filter_csvWrite, Event.isCsvWrite, statusOf]

/-- C10 witness: with the tracking store resolving the model artifact to an
`mlflow-artifacts:` URI, `train` succeeds, writes no leaderboard CSV, and
still closes the run as finished. -/
theorem c10_non_file_uri_skips_leaderboard_witness :
    pyStartsWith envNonFileUri.modelUri "file:/" = false
    ∧ (train "automl-insurance" "claim" 10 "data/processed/train.csv" envNonFileUri).outcome
        = .ok ()
    ∧ (train "automl-insurance" "claim" 10
        "data/processed/train.csv" envNonFileUri).events.filter Event.isCsvWrite = []
    ∧ Event.endRun 0 .finished
        ∈ (train "automl-insurance" "claim" 10 "data/processed/train.csv" envNonFileUri).events := by
  have h := c10_non_file_uri_skips_leaderboard "automl-insurance" "claim" 10
      "data/processed/train.csv" envNonFileUri rfl rfl (by decide) rfl rfl rfl rfl (by decide)
  exact ⟨by decide, h.1, h.2.1, h.2.2.1⟩

end Demomlops
